import Mathlib

/-!
Verification of the KrediPlus credit-simulator core.

The computational core of the repository is the `estimatedPayment` memo in
the `CreditSimulator` component (`src/unnamed/part_007`, lines 125-135),
together with the `clampAmount` helper (lines 47-52).  Both are pure
functions on JavaScript numbers.  We embed them over the rationals `ℚ`
(exact arithmetic standing for the idealized real-number semantics of the
code; the spec mentions floating point only to allow rounding tolerance).
The term count is a natural number, matching the integer months selected in
the UI; the JavaScript expression `Math.pow(1 + r, -months)` becomes the
integer power `(1 + r) ^ (-(months : ℤ))`.

`NaN` has no counterpart in `ℚ`; since its only role in `clampAmount` is
the `Number.isNaN` guard, the input is embedded as a sum type `JsNum` with
an explicit `nan` constructor.
-/

namespace KrediPlus

/-- Embedding of `estimatedPayment` (src/unnamed/part_007, lines 125-135):

    const monthlyRateDecimal = monthlyRate / 100
    if (monthlyRateDecimal <= 0) { return amount / months }
    const numerator = amount * monthlyRateDecimal
    const denominator = 1 - Math.pow(1 + monthlyRateDecimal, -months)
    if (denominator === 0) return 0
    return numerator / denominator
-/
def estimatedPayment (amount : ℚ) (months : ℕ) (monthlyRate : ℚ) : ℚ :=
  let monthlyRateDecimal := monthlyRate / 100
  if monthlyRateDecimal ≤ 0 then
    amount / (months : ℚ)
  else
    let numerator := amount * monthlyRateDecimal
    let denominator := 1 - (1 + monthlyRateDecimal) ^ (-(months : ℤ))
    if denominator = 0 then 0 else numerator / denominator

/-- `totalToPay = monthlyPayment * termMonths`, the derived total used by the
spec (section 3, SimulationResult). -/
def totalToPay (amount : ℚ) (months : ℕ) (monthlyRate : ℚ) : ℚ :=
  estimatedPayment amount months monthlyRate * (months : ℚ)

/-- `totalInterest = totalToPay - principal`, the derived total used by the
spec (section 3, SimulationResult). -/
def totalInterest (amount : ℚ) (months : ℕ) (monthlyRate : ℚ) : ℚ :=
  totalToPay amount months monthlyRate - amount

/-- A JavaScript number that may be `NaN`; `clampAmount` tests `Number.isNaN`
on its first argument, so that argument is embedded with an explicit `nan`
case. -/
inductive JsNum where
  | nan : JsNum
  | val : ℚ → JsNum

/-- Embedding of `clampAmount` (src/unnamed/part_007, lines 47-52):

    if (Number.isNaN(value)) return min
    if (value < min) return min
    if (value > max) return max
    return value
-/
def clampAmount (value : JsNum) (lo hi : ℚ) : ℚ :=
  match value with
  | JsNum.nan => lo
  | JsNum.val v => if v < lo then lo else if v > hi then hi else v

/-- Embedding of the sanitization in `handleManualChange`
(src/unnamed/part_007, line 147): `value.replace(/[^0-9]/g, '')` keeps
exactly the decimal digits of the typed text. -/
def sanitizeDigits (value : List Char) : List Char :=
  value.filter (fun c => c.isDigit)

/-- Decimal value of a digit string, the effect of JavaScript `Number` on
the sanitized (all-digit) text. -/
def digitsToNat (s : List Char) : ℕ :=
  s.foldl (fun acc c => 10 * acc + (c.toNat - 48)) 0

/-- Embedding of the amount-state update performed by `handleManualChange`
(src/unnamed/part_007, lines 146-151):

    const sanitized = value.replace(/[^0-9]/g, '')
    setManualAmount(sanitized)
    if (!sanitized) return
    setAmount(Number(sanitized))

An empty sanitized string leaves the amount unchanged; otherwise the parsed
number is stored via `setAmount` with no clamping (clamping happens only
later, in `handleManualBlur`).  The result is the amount state after the
handler runs. -/
def handleManualChange (value : List Char) (amount : ℚ) : ℚ :=
  let sanitized := sanitizeDigits value
  if sanitized = [] then amount else (digitsToNat sanitized : ℚ)

/-- Mathematical helper (not from the source): the sum of the discount
factors `(1+r)^(-k)` for `k = 1, …, n`.  The annuity denominator factors as
`r * discountSum r n`, which drives every monotonicity proof below. -/
def discountSum (r : ℚ) (n : ℕ) : ℚ :=
  ∑ k in Finset.range n, ((1 + r) ^ (k + 1))⁻¹

/-- Unfolding equation for `estimatedPayment` with the `let`s substituted. -/
theorem estimatedPayment_eq (amount : ℚ) (months : ℕ) (monthlyRate : ℚ) :
    estimatedPayment amount months monthlyRate =
      if monthlyRate / 100 ≤ 0 then amount / (months : ℚ)
      else if 1 - (1 + monthlyRate / 100) ^ (-(months : ℤ)) = 0 then 0
      else amount * (monthlyRate / 100) /
        (1 - (1 + monthlyRate / 100) ^ (-(months : ℤ))) := rfl

/-- Geometric-sum identity: `1 - x⁻ⁿ = (x - 1) * Σ_{k<n} (x^(k+1))⁻¹`. -/
theorem one_sub_inv_pow (x : ℚ) (hx : x ≠ 0) (n : ℕ) :
    1 - (x ^ n)⁻¹ = (x - 1) * ∑ k in Finset.range n, (x ^ (k + 1))⁻¹ := by
  induction n with
  | zero => simp
  | succ n ih =>
    rw [Finset.sum_range_succ, mul_add, ← ih]
    have hxn : x ^ n ≠ 0 := pow_ne_zero _ hx
    have hxn1 : x ^ (n + 1) ≠ 0 := pow_ne_zero _ hx
    field_simp
    ring

/-- The annuity denominator factors through the discount sum. -/
theorem denominator_factor (r : ℚ) (hx : (1 : ℚ) + r ≠ 0) (n : ℕ) :
    1 - (1 + r) ^ (-(n : ℤ)) = r * discountSum r n := by
  rw [zpow_neg, zpow_natCast, one_sub_inv_pow _ hx, discountSum]
  ring

theorem discountSum_pos (r : ℚ) (hr : 0 ≤ r) (n : ℕ) (hn : 1 ≤ n) :
    0 < discountSum r n := by
  apply Finset.sum_pos
  · intro k _
    exact inv_pos.mpr (pow_pos (by linarith) _)
  · exact Finset.nonempty_range_iff.mpr (by omega)

theorem discountSum_lt_card (r : ℚ) (hr : 0 < r) (n : ℕ) (hn : 1 ≤ n) :
    discountSum r n < (n : ℚ) := by
  have h : discountSum r n < ∑ _k in Finset.range n, (1 : ℚ) := by
    apply Finset.sum_lt_sum_of_nonempty (Finset.nonempty_range_iff.mpr (by omega))
    intro k _
    exact inv_lt_one_of_one_lt₀ (one_lt_pow₀ (by linarith) (Nat.succ_ne_zero k))
  simpa using h

theorem discountSum_anti (r₁ r₂ : ℚ) (h₁ : 0 ≤ r₁) (h₁₂ : r₁ < r₂)
    (n : ℕ) (hn : 1 ≤ n) :
    discountSum r₂ n < discountSum r₁ n := by
  apply Finset.sum_lt_sum_of_nonempty (Finset.nonempty_range_iff.mpr (by omega))
  intro k _
  exact inv_strictAnti₀ (pow_pos (by linarith) _)
    (pow_lt_pow_left₀ (by linarith) (by linarith) (Nat.succ_ne_zero k))

theorem discountSum_strictMono (r : ℚ) (hr : 0 ≤ r) :
    StrictMono (discountSum r) := by
  apply strictMono_nat_of_lt_succ
  intro n
  have h : discountSum r (n + 1) =
      discountSum r n + ((1 + r) ^ (n + 1))⁻¹ := by
    simp [discountSum, Finset.sum_range_succ]
  rw [h]
  exact lt_add_of_pos_right _ (inv_pos.mpr (pow_pos (by linarith) _))

/-- Closed form of the payment for valid inputs: `amount / discountSum`. -/
theorem estimatedPayment_closed (amount : ℚ) (n : ℕ) (rate : ℚ)
    (hr : 0 ≤ rate) (hn : 1 ≤ n) :
    estimatedPayment amount n rate = amount / discountSum (rate / 100) n := by
  rcases eq_or_lt_of_le hr with h0 | hpos
  · rw [← h0, estimatedPayment_eq]
    norm_num [discountSum]
  · have hρ : 0 < rate / 100 := by positivity
    have hx : (1 : ℚ) + rate / 100 ≠ 0 := by positivity
    have hS : 0 < discountSum (rate / 100) n := discountSum_pos _ hρ.le n hn
    rw [estimatedPayment_eq, if_neg (not_le.mpr hρ), denominator_factor _ hx n,
      if_neg (by positivity)]
    rw [mul_comm amount (rate / 100), mul_div_mul_left _ _ (ne_of_gt hρ)]

/-- C1: for every principal > 0, termMonths ≥ 1 and monthlyRatePercent > 0,
the computed monthly payment equals the standard annuity formula
`(principal * r) / (1 - (1 + r) ^ (-termMonths))` with `r = rate / 100`. -/
theorem annuity_formula (amount : ℚ) (n : ℕ) (rate : ℚ)
    (hP : 0 < amount) (hn : 1 ≤ n) (hr : 0 < rate) :
    estimatedPayment amount n rate =
      amount * (rate / 100) / (1 - (1 + rate / 100) ^ (-(n : ℤ))) := by
  have hρ : 0 < rate / 100 := by positivity
  have hx : (1 : ℚ) + rate / 100 ≠ 0 := by positivity
  have hS : 0 < discountSum (rate / 100) n := discountSum_pos _ hρ.le n hn
  rw [estimatedPayment_eq, if_neg (not_le.mpr hρ), if_neg ?_]
  rw [denominator_factor _ hx n]
  positivity

theorem annuity_formula_witness :
    0 < (1000000 : ℚ) ∧ 1 ≤ 12 ∧ 0 < (6 / 5 : ℚ) ∧
    estimatedPayment 1000000 12 (6 / 5) =
      1000000 * (6 / 5 / 100) /
        (1 - (1 + 6 / 5 / 100) ^ (-((12 : ℕ) : ℤ))) :=
  ⟨by norm_num, by norm_num, by norm_num,
    annuity_formula 1000000 12 (6 / 5) (by norm_num) (by norm_num) (by norm_num)⟩

/-- C2: with a zero rate, the payment is `principal / termMonths` and the
derived total interest is zero. -/
theorem zero_rate_payment (amount : ℚ) (n : ℕ) (hP : 0 < amount) (hn : 1 ≤ n) :
    estimatedPayment amount n 0 = amount / (n : ℚ) ∧
    totalInterest amount n 0 = 0 := by
  have hn0 : ((n : ℚ)) ≠ 0 := by
    have : 0 < (n : ℚ) := by exact_mod_cast hn
    exact this.ne'
  have h1 : estimatedPayment amount n 0 = amount / (n : ℚ) := by
    rw [estimatedPayment_eq]; norm_num
  refine ⟨h1, ?_⟩
  rw [totalInterest, totalToPay, h1, div_mul_cancel₀ _ hn0, sub_self]

theorem zero_rate_payment_witness :
    0 < (5000000 : ℚ) ∧ 1 ≤ 24 ∧
    estimatedPayment 5000000 24 0 = 5000000 / ((24 : ℕ) : ℚ) ∧
    totalInterest 5000000 24 0 = 0 := by
  have h := zero_rate_payment 5000000 24 (by norm_num) (by norm_num)
  exact ⟨by norm_num, by norm_num, h.1, h.2⟩

/-- C8: with a single installment (termMonths = 1), the payment equals
`principal * (1 + r)` where `r = rate / 100`. -/
theorem single_installment (amount : ℚ) (rate : ℚ)
    (hP : 0 < amount) (hr : 0 ≤ rate) :
    estimatedPayment amount 1 rate = amount * (1 + rate / 100) := by
  rw [estimatedPayment_closed amount 1 rate hr le_rfl]
  have h : discountSum (rate / 100) 1 = (1 + rate / 100)⁻¹ := by
    simp [discountSum]
  rw [h, div_inv_eq_mul]

theorem single_installment_witness :
    0 < (1000000 : ℚ) ∧ 0 ≤ (6 / 5 : ℚ) ∧
    estimatedPayment 1000000 1 (6 / 5) = 1000000 * (1 + 6 / 5 / 100) :=
  ⟨by norm_num, by norm_num,
    single_installment 1000000 (6 / 5) (by norm_num) (by norm_num)⟩

/-- C9: a negative rate falls into the interest-free branch (the guard is
`monthlyRateDecimal <= 0`, not an equality test), so the payment is
`amount / termMonths`, the same as with a zero rate. -/
theorem negative_rate_branch (amount : ℚ) (months : ℕ) (rate : ℚ)
    (hr : rate < 0) (hm : 1 ≤ months) :
    estimatedPayment amount months rate = amount / (months : ℚ) := by
  rw [estimatedPayment_eq, if_pos (by linarith)]

theorem negative_rate_branch_witness :
    (-3 : ℚ) < 0 ∧ 1 ≤ 12 ∧
    estimatedPayment 2000000 12 (-3) = 2000000 / ((12 : ℕ) : ℚ) :=
  ⟨by norm_num, by norm_num,
    negative_rate_branch 2000000 12 (-3) (by norm_num) (by norm_num)⟩

/-- C3: holding principal > 0 and termMonths ≥ 1 fixed, a strictly larger
(still non-negative) rate gives a strictly larger monthly payment. -/
theorem rate_monotonicity (amount : ℚ) (n : ℕ) (r₁ r₂ : ℚ)
    (hP : 0 < amount) (hn : 1 ≤ n) (h₁ : 0 ≤ r₁) (h₁₂ : r₁ < r₂) :
    estimatedPayment amount n r₁ < estimatedPayment amount n r₂ := by
  have h₂ : 0 ≤ r₂ := le_of_lt (lt_of_le_of_lt h₁ h₁₂)
  rw [estimatedPayment_closed amount n r₁ h₁ hn,
    estimatedPayment_closed amount n r₂ h₂ hn]
  have hρ₁ : 0 ≤ r₁ / 100 := by positivity
  have hρ₁₂ : r₁ / 100 < r₂ / 100 := by linarith
  exact div_lt_div_of_pos_left hP
    (discountSum_pos _ (by positivity) n hn)
    (discountSum_anti _ _ hρ₁ hρ₁₂ n hn)

theorem rate_monotonicity_witness :
    0 < (1000000 : ℚ) ∧ 1 ≤ 12 ∧ 0 ≤ (0 : ℚ) ∧ (0 : ℚ) < 6 / 5 ∧
    estimatedPayment 1000000 12 0 < estimatedPayment 1000000 12 (6 / 5) :=
  ⟨by norm_num, by norm_num, le_rfl, by norm_num,
    rate_monotonicity 1000000 12 0 (6 / 5) (by norm_num) (by norm_num)
      le_rfl (by norm_num)⟩

/-- C4: for valid inputs the payment is non-negative, and with a strictly
positive rate it strictly exceeds `principal / termMonths`; equivalently,
the derived `totalToPay` strictly exceeds the principal. -/
theorem payment_lower_bounds (amount : ℚ) (n : ℕ) (rate : ℚ)
    (hP : 0 < amount) (hn : 1 ≤ n) (hr : 0 ≤ rate) :
    0 ≤ estimatedPayment amount n rate ∧
    (0 < rate →
      amount / (n : ℚ) < estimatedPayment amount n rate ∧
      amount < totalToPay amount n rate) := by
  have hS : 0 < discountSum (rate / 100) n :=
    discountSum_pos _ (by positivity) n hn
  have hclosed := estimatedPayment_closed amount n rate hr hn
  have hn0 : 0 < (n : ℚ) := by exact_mod_cast hn
  constructor
  · rw [hclosed]
    exact div_nonneg hP.le hS.le
  · intro hrpos
    have hρ : 0 < rate / 100 := by positivity
    have hlt : discountSum (rate / 100) n < (n : ℚ) :=
      discountSum_lt_card _ hρ n hn
    have hdiv : amount / (n : ℚ) < estimatedPayment amount n rate := by
      rw [hclosed]
      exact div_lt_div_of_pos_left hP hS hlt
    refine ⟨hdiv, ?_⟩
    have h := mul_lt_mul_of_pos_right hdiv hn0
    rw [div_mul_cancel₀ _ hn0.ne'] at h
    rw [totalToPay]
    exact h

theorem payment_lower_bounds_witness :
    0 < (1000000 : ℚ) ∧ 1 ≤ 12 ∧ 0 < (6 / 5 : ℚ) ∧
    0 ≤ estimatedPayment 1000000 12 (6 / 5) ∧
    1000000 / ((12 : ℕ) : ℚ) < estimatedPayment 1000000 12 (6 / 5) ∧
    1000000 < totalToPay 1000000 12 (6 / 5) := by
  have h := payment_lower_bounds 1000000 12 (6 / 5) (by norm_num)
    (by norm_num) (by norm_num)
  have h2 := h.2 (by norm_num)
  exact ⟨by norm_num, by norm_num, by norm_num, h.1, h2.1, h2.2⟩

/-- C5: in the positive-rate branch, a zero denominator short-circuits to a
payment of 0, and the division `numerator / denominator` is only performed
when the denominator is non-zero — the calculation never divides by zero. -/
theorem denominator_guard (amount : ℚ) (months : ℕ) (rate : ℚ)
    (hr : 0 < rate) :
    (1 - (1 + rate / 100) ^ (-(months : ℤ)) = 0 →
      estimatedPayment amount months rate = 0) ∧
    (1 - (1 + rate / 100) ^ (-(months : ℤ)) ≠ 0 →
      estimatedPayment amount months rate =
        amount * (rate / 100) / (1 - (1 + rate / 100) ^ (-(months : ℤ)))) := by
  have hρ : 0 < rate / 100 := by positivity
  rw [estimatedPayment_eq, if_neg (not_le.mpr hρ)]
  constructor
  · intro h; rw [if_pos h]
  · intro h; rw [if_neg h]

theorem denominator_guard_witness :
    1 - ((1 : ℚ) + 100 / 100) ^ (-((0 : ℕ) : ℤ)) = 0 ∧
    estimatedPayment 1 0 100 = 0 := by
  have h0 : 1 - ((1 : ℚ) + 100 / 100) ^ (-((0 : ℕ) : ℤ)) = 0 := by
    norm_num
  exact ⟨h0, (denominator_guard 1 0 100 (by norm_num)).1 h0⟩

/-- One step of the term-ratio growth: the average of the discount factors
strictly decreases when a month is added, so `n / discountSum r n` grows. -/
theorem nOverSum_succ (r : ℚ) (hr : 0 < r) (n : ℕ) (hn : 1 ≤ n) :
    (n : ℚ) / discountSum r n < ((n + 1 : ℕ) : ℚ) / discountSum r (n + 1) := by
  have hS : 0 < discountSum r n := discountSum_pos r hr.le n hn
  have hS1 : 0 < discountSum r (n + 1) := discountSum_pos r hr.le (n + 1) (by omega)
  have key : (n : ℚ) * ((1 + r) ^ (n + 1))⁻¹ < discountSum r n := by
    have hsum : ∑ _k in Finset.range n, ((1 + r) ^ (n + 1))⁻¹ <
        ∑ k in Finset.range n, ((1 + r) ^ (k + 1))⁻¹ := by
      apply Finset.sum_lt_sum_of_nonempty (Finset.nonempty_range_iff.mpr (by omega))
      intro k hk
      have hk' : k < n := Finset.mem_range.mp hk
      exact inv_strictAnti₀ (pow_pos (by linarith) _)
        (pow_lt_pow_right₀ (by linarith) (by omega))
    have hcst : ∑ _k in Finset.range n, ((1 + r) ^ (n + 1))⁻¹ =
        (n : ℚ) * ((1 + r) ^ (n + 1))⁻¹ := by
      rw [Finset.sum_const, Finset.card_range, nsmul_eq_mul]
    rw [hcst] at hsum
    exact lt_of_lt_of_le hsum (le_of_eq rfl)
  have hexp : discountSum r (n + 1) =
      discountSum r n + ((1 + r) ^ (n + 1))⁻¹ := by
    simp [discountSum, Finset.sum_range_succ]
  rw [div_lt_div_iff₀ hS hS1, hexp]
  push_cast
  calc (n : ℚ) * (discountSum r n + ((1 + r) ^ (n + 1))⁻¹)
      = (n : ℚ) * discountSum r n + (n : ℚ) * ((1 + r) ^ (n + 1))⁻¹ := by ring
    _ < (n : ℚ) * discountSum r n + discountSum r n := by linarith
    _ = ((n : ℚ) + 1) * discountSum r n := by ring

/-- The term ratio `n / discountSum r n` is strictly increasing in `n ≥ 1`. -/
theorem nOverSum_mono (r : ℚ) (hr : 0 < r) (n₁ n₂ : ℕ)
    (h1 : 1 ≤ n₁) (h12 : n₁ < n₂) :
    (n₁ : ℚ) / discountSum r n₁ < (n₂ : ℚ) / discountSum r n₂ := by
  induction n₂ with
  | zero => omega
  | succ m ih =>
    rcases (Nat.lt_succ_iff.mp h12).lt_or_eq with h | h
    · exact lt_trans (ih h) (nOverSum_succ r hr m (by omega))
    · subst h
      exact nOverSum_succ r hr n₁ h1

/-- Closed form of the derived total interest for valid inputs. -/
theorem totalInterest_closed (amount : ℚ) (n : ℕ) (rate : ℚ)
    (hr : 0 ≤ rate) (hn : 1 ≤ n) :
    totalInterest amount n rate =
      amount * ((n : ℚ) / discountSum (rate / 100) n) - amount := by
  rw [totalInterest, totalToPay, estimatedPayment_closed amount n rate hr hn]
  ring

/-- C7: with principal > 0 and rate > 0 fixed, a strictly longer term gives
a strictly smaller monthly payment but strictly larger derived total
interest. -/
theorem term_monotonicity (amount rate : ℚ) (n₁ n₂ : ℕ)
    (hP : 0 < amount) (hr : 0 < rate) (h1 : 1 ≤ n₁) (h12 : n₁ < n₂) :
    estimatedPayment amount n₂ rate < estimatedPayment amount n₁ rate ∧
    totalInterest amount n₁ rate < totalInterest amount n₂ rate := by
  have hρ : 0 < rate / 100 := by positivity
  have h2 : 1 ≤ n₂ := by omega
  have hS₁ := discountSum_pos (rate / 100) hρ.le n₁ h1
  constructor
  · rw [estimatedPayment_closed amount n₁ rate hr.le h1,
      estimatedPayment_closed amount n₂ rate hr.le h2]
    exact div_lt_div_of_pos_left hP hS₁ (discountSum_strictMono _ hρ.le h12)
  · rw [totalInterest_closed amount n₁ rate hr.le h1,
      totalInterest_closed amount n₂ rate hr.le h2]
    have hg := nOverSum_mono (rate / 100) hρ n₁ n₂ h1 h12
    have hmul := mul_lt_mul_of_pos_left hg hP
    linarith

theorem term_monotonicity_witness :
    estimatedPayment 1000000 24 (6 / 5) < estimatedPayment 1000000 12 (6 / 5) ∧
    totalInterest 1000000 12 (6 / 5) < totalInterest 1000000 24 (6 / 5) :=
  term_monotonicity 1000000 (6 / 5) 12 24 (by norm_num) (by norm_num)
    (by norm_num) (by norm_num)

/-- C6 counterexample: the code performs no invalid-argument rejection.  At
the invalid input `principal = -1000000, termMonths = 12, rate = 1.2` the
computation proceeds through the annuity formula and returns a (negative)
numeric result instead of failing. -/
theorem no_rejection_counterexample :
    estimatedPayment (-1000000) 12 (6 / 5) < 0 := by
  rw [estimatedPayment_closed (-1000000) 12 (6 / 5) (by norm_num) (by norm_num)]
  exact div_neg_of_neg_of_pos (by norm_num)
    (discountSum_pos _ (by norm_num) 12 (by norm_num))

/-- C6 amended: the calculation never rejects; it is a total function.  A
negative rate silently takes the interest-free branch and returns
`amount / termMonths`, and a non-positive principal flows through the
formula, yielding a non-positive payment. -/
theorem no_input_validation (amount : ℚ) (months : ℕ) (rate : ℚ) :
    (rate < 0 → estimatedPayment amount months rate = amount / (months : ℚ)) ∧
    (amount ≤ 0 → 1 ≤ months → 0 ≤ rate →
      estimatedPayment amount months rate ≤ 0) := by
  constructor
  · intro h
    rw [estimatedPayment_eq, if_pos (by linarith)]
  · intro hA hm hr
    rw [estimatedPayment_closed amount months rate hr hm]
    exact div_nonpos_iff.mpr
      (Or.inr ⟨hA, (discountSum_pos _ (div_nonneg hr (by norm_num)) months hm).le⟩)

theorem no_input_validation_witness :
    estimatedPayment (-1) 2 (-1) = (-1) / ((2 : ℕ) : ℚ) ∧
    estimatedPayment (-1) 2 1 ≤ 0 :=
  ⟨(no_input_validation (-1) 2 (-1)).1 (by norm_num),
    (no_input_validation (-1) 2 1).2 (by norm_num) (by norm_num) (by norm_num)⟩

/-- C10 counterexample: the claim's concluding state invariant ("the
simulator's amount state always lies within the configured bounds before
any payment computation") fails.  With the default simulator bounds
(montoMinimo = 1000000, montoMaximo = 140000000, src/unnamed/part_000) and
the manual input mode enabled by the showModeToggle pages, typing the digit
5 makes `handleManualChange` store amount 5 — below the configured minimum,
since `setAmount` is called without clamping — and the `estimatedPayment`
memo recomputes a payment from that out-of-bounds amount; clamping would
have produced 1000000 instead. -/
theorem amount_state_counterexample :
    handleManualChange ['5'] 1000000 = 5 ∧
    handleManualChange ['5'] 1000000 < 1000000 ∧
    clampAmount (JsNum.val (handleManualChange ['5'] 1000000)) 1000000 140000000
      = 1000000 ∧
    0 < estimatedPayment (handleManualChange ['5'] 1000000) 12 (6 / 5) := by
  have h : handleManualChange ['5'] 1000000 = 5 := by decide
  refine ⟨h, ?_, ?_, ?_⟩
  · rw [h]; norm_num
  · rw [h]; decide
  · rw [h, estimatedPayment_closed 5 12 (6 / 5) (by norm_num) (by norm_num)]
    exact div_pos (by norm_num) (discountSum_pos _ (by norm_num) 12 (by norm_num))

/-- C10, amended: the clamp function contract — for `lo ≤ hi`, `clampAmount`
always lands in `[lo, hi]`, maps `NaN` to `lo`, and leaves a value already
inside the interval unchanged.  The original claim's further consequence
that the simulator's amount state is always within the configured bounds
before a payment computation is dropped: `handleManualChange` stores the
typed amount without clamping, so out-of-bounds amounts can reach the
payment memo. -/
theorem clampAmount_spec (v : JsNum) (lo hi : ℚ) (h : lo ≤ hi) :
    (lo ≤ clampAmount v lo hi ∧ clampAmount v lo hi ≤ hi) ∧
    clampAmount JsNum.nan lo hi = lo ∧
    (∀ q : ℚ, lo ≤ q → q ≤ hi → clampAmount (JsNum.val q) lo hi = q) := by
  refine ⟨?_, rfl, ?_⟩
  · cases v with
    | nan => exact ⟨le_rfl, h⟩
    | val q =>
      simp only [clampAmount]
      split_ifs with h1 h2
      · exact ⟨le_rfl, h⟩
      · exact ⟨h, le_rfl⟩
      · exact ⟨not_lt.mp h1, not_lt.mp h2⟩
  · intro q hq1 hq2
    simp only [clampAmount]
    rw [if_neg (not_lt.mpr hq1), if_neg (not_lt.mpr hq2)]

theorem clampAmount_spec_witness :
    (0 ≤ clampAmount (JsNum.val 5) 0 10 ∧ clampAmount (JsNum.val 5) 0 10 ≤ 10) ∧
    clampAmount JsNum.nan 0 10 = 0 ∧ clampAmount (JsNum.val 5) 0 10 = 5 := by
  obtain ⟨h1, h2, h3⟩ := clampAmount_spec (JsNum.val 5) 0 10 (by norm_num)
  exact ⟨h1, h2, h3 5 (by norm_num) (by norm_num)⟩

end KrediPlus
